import Mathlib

/-! Namespace view registry (`metrics/register.go`).

A shallow embedding of the package `metrics`: the package-level map
`registeredViews`, the package-level `mutex`, and the three exported
functions `RegisterViews`, `LookupViews` and `AllViews`.

* A Go `map[string][]*view.View` is an association list with pairwise
  distinct keys (`AList`); `m[k]` is `AList.lookup`, `delete(m, k)` is
  `AList.erase`.
* A slice `[]*view.View` is a `List View`; the `nil` slice is `[]`.
* `sync.Mutex` is a boolean, `true` when held.  `Lock()` on a held mutex
  never returns, so every function yields an `Option`: `none` means that
  the call blocks forever in `mutex.Lock()`.
* `view.Register` belongs to the opencensus library.  It is a parameter
  of the model: a function from the calls made so far and the views
  passed now to `nil` (`none`) or an error.  The calls made are recorded
  in the state.
-/

namespace Metrics

/-- A `*view.View`: an opaque handle, identified by its address. -/
abbrev View := Nat

/-- The error values of the opencensus library. They are never inspected. -/
abbrev ViewError := String

/-- The entry type of `map[string][]*view.View`. -/
abbrev Entry := Sigma (fun (_ : String) => List View)

/-- The type `map[string][]*view.View`. -/
abbrev ViewMap := AList (fun (_ : String) => List View)

/-- A value of the Go interface `error` that is not `nil`: one of the two
error types of this package (both are `ErrNamespace` under another name and
carry the field `Namespace`), or the error value that `view.Register`
returned, held as it is. -/
inductive GoError where
  | ErrUnregisteredNamespace (Namespace : String)
  | ErrDuplicateNamespaceRegistration (Namespace : String)
  | viewRegister (err : ViewError)
  deriving DecidableEq, Repr

/-- The function `view.Register` of opencensus: given the argument lists of
the calls made before and the views of this call, `none` for a `nil` error
or `some err`. -/
abbrev ViewProvider := List (List View) → List View → Option ViewError

/-- The package-level variables, and the calls made to `view.Register`. -/
structure State where
  /-- The variable `registeredViews`. -/
  registeredViews : ViewMap
  /-- The variable `mutex`: `true` when locked. -/
  mutex : Bool
  /-- The argument lists of the calls to `view.Register`, oldest first. -/
  calls : List (List View)
  deriving DecidableEq

/-- The state at package initialisation: `registeredViews` is the empty map
literal, `mutex` is unlocked, `view.Register` has not been called. -/
def State.init : State :=
  { registeredViews := ∅, mutex := false, calls := [] }

/-- The function `RegisterViews(namespace, views...)`; the result is the
state at return and the returned `error` (`none` for `nil`). -/
def RegisterViews (p : ViewProvider) (s : State) (ns : String) (views : List View) :
    Option (State × Option GoError) :=
  -- mutex.Lock()
  if s.mutex then none
  else
    let s1 : State := { s with mutex := true }
    -- _, ok := registeredViews[namespace]; if !ok { return ErrDuplicate... }
    match s1.registeredViews.lookup ns with
    | none => some (s1, some (GoError.ErrDuplicateNamespaceRegistration ns))
    | some _ =>
      -- if err := view.Register(views...); err != nil { delete(...); return err }
      let s2 : State := { s1 with calls := s1.calls ++ [views] }
      match p s1.calls views with
      | some err =>
        some ({ s2 with registeredViews := s2.registeredViews.erase ns },
          some (GoError.viewRegister err))
      | none =>
        -- mutex.Unlock(); return nil
        some ({ s2 with mutex := false }, none)

/-- The function `LookupViews(name)`; the result is the state at return, the
returned slice and the returned `error` (`none` for `nil`). -/
def LookupViews (s : State) (name : String) :
    Option (State × List View × Option GoError) :=
  -- mutex.Lock()
  if s.mutex then none
  else
    let s1 : State := { s with mutex := true }
    -- views, ok := registeredViews[name]
    let r := s1.registeredViews.lookup name
    -- mutex.Unlock()
    let s2 : State := { s1 with mutex := false }
    match r with
    | none => some (s2, [], some (GoError.ErrUnregisteredNamespace name))
    | some views => some (s2, views, none)

/-- The loop `for _, vs := range m { views = append(views, vs...) }` run
over the entries in the order `order`, starting from `views`. -/
def appendAll (views : List View) (order : List Entry) : List View :=
  order.foldl (fun acc e => acc ++ e.2) views

/-- The function `AllViews()`, with the order in which `range` visits the
entries of the map given as `order` (Go leaves it unspecified; it is a
rearrangement of the entries of `registeredViews`). -/
def AllViewsIn (order : List Entry) (s : State) : Option (State × List View) :=
  -- var views []*view.View; mutex.Lock()
  if s.mutex then none
  else
    let s1 : State := { s with mutex := true }
    let views := appendAll [] order
    -- mutex.Unlock()
    some ({ s1 with mutex := false }, views)

/-- The function `AllViews()` when `range` visits the entries in the order in
which the association list stores them. -/
def AllViews (s : State) : Option (State × List View) :=
  AllViewsIn s.registeredViews.entries s

/-- A map with the single entry `ns ↦ views`. -/
def ViewMap.single (ns : String) (views : List View) : ViewMap :=
  AList.singleton ns views

/-- A map with the two entries `"http" ↦ [1]` and `"grpc" ↦ [2, 3]`. -/
def ViewMap.httpGrpc : ViewMap :=
  AList.insert "http" [1] (AList.singleton "grpc" [2, 3])

/-- A state in which `"http"` has the entry `[1]`, the mutex is unlocked and
`view.Register` has not been called. -/
def State.http : State :=
  { registeredViews := ViewMap.single "http" [1], mutex := false, calls := [] }

/-- A `view.Register` that always returns `nil`. -/
def okProvider : ViewProvider := fun _ _ => none

/-- A `view.Register` that always returns the error `err`. -/
def failProvider (err : ViewError) : ViewProvider := fun _ _ => some err

/-- A call of one of the three exported functions. For `AllViews` the order
in which `range` visits the entries is part of the call. -/
inductive Op where
  | RegisterViews (ns : String) (views : List View)
  | LookupViews (name : String)
  | AllViews (order : List Entry)

/-- The state at the return of one call; `none` when the call blocks. -/
def step (p : ViewProvider) (s : State) : Op → Option State
  | Op.RegisterViews ns views => (RegisterViews p s ns views).map Prod.fst
  | Op.LookupViews name => (LookupViews s name).map Prod.fst
  | Op.AllViews order => (AllViewsIn order s).map Prod.fst

/-- The state after a sequence of calls made one after the other, each
started when the one before has returned; `none` when one of them blocks. -/
def run (p : ViewProvider) (s : State) : List Op → Option State
  | [] => some s
  | op :: ops => (step p s op).bind (fun s1 => run p s1 ops)

end Metrics

namespace Metrics

/-! ## What each function does on each of its paths -/

theorem RegisterViews_blocked (p : ViewProvider) (s : State) (ns : String)
    (views : List View) (hm : s.mutex = true) :
    RegisterViews p s ns views = none := by
  simp [RegisterViews, hm]

theorem RegisterViews_absent (p : ViewProvider) (s : State) (ns : String)
    (views : List View) (hm : s.mutex = false)
    (hn : s.registeredViews.lookup ns = none) :
    RegisterViews p s ns views =
      some ({ s with mutex := true },
        some (GoError.ErrDuplicateNamespaceRegistration ns)) := by
  simp [RegisterViews, hm, hn]

theorem RegisterViews_present_ok (p : ViewProvider) (s : State) (ns : String)
    (views old : List View) (hm : s.mutex = false)
    (hn : s.registeredViews.lookup ns = some old)
    (hp : p s.calls views = none) :
    RegisterViews p s ns views =
      some ({ s with mutex := false, calls := s.calls ++ [views] }, none) := by
  simp [RegisterViews, hm, hn, hp]

theorem RegisterViews_present_fail (p : ViewProvider) (s : State) (ns : String)
    (views old : List View) (err : ViewError) (hm : s.mutex = false)
    (hn : s.registeredViews.lookup ns = some old)
    (hp : p s.calls views = some err) :
    RegisterViews p s ns views =
      some ({ registeredViews := s.registeredViews.erase ns, mutex := true,
              calls := s.calls ++ [views] },
        some (GoError.viewRegister err)) := by
  simp [RegisterViews, hm, hn, hp]

theorem LookupViews_blocked (s : State) (name : String) (hm : s.mutex = true) :
    LookupViews s name = none := by
  simp [LookupViews, hm]

theorem LookupViews_absent (s : State) (name : String) (hm : s.mutex = false)
    (hn : s.registeredViews.lookup name = none) :
    LookupViews s name =
      some (s, [], some (GoError.ErrUnregisteredNamespace name)) := by
  cases s with
  | mk m b c =>
    simp only at hm hn
    subst hm
    simp [LookupViews, hn]

theorem LookupViews_present (s : State) (name : String) (views : List View)
    (hm : s.mutex = false) (hn : s.registeredViews.lookup name = some views) :
    LookupViews s name = some (s, views, none) := by
  cases s with
  | mk m b c =>
    simp only at hm hn
    subst hm
    simp [LookupViews, hn]

theorem AllViewsIn_free (order : List Entry) (s : State) (hm : s.mutex = false) :
    AllViewsIn order s = some (s, appendAll [] order) := by
  cases s with
  | mk m b c =>
    simp only at hm
    subst hm
    simp [AllViewsIn]

theorem AllViewsIn_blocked (order : List Entry) (s : State) (hm : s.mutex = true) :
    AllViewsIn order s = none := by
  simp [AllViewsIn, hm]

theorem appendAll_eq (order : List Entry) (views : List View) :
    appendAll views order = views ++ (order.map (fun e => e.2)).flatten := by
  induction order generalizing views with
  | nil => simp [appendAll]
  | cons e rest ih =>
    have h : appendAll views (e :: rest) = appendAll (views ++ e.2) rest := rfl
    rw [h, ih]
    simp

theorem coe_flatten_sum (ls : List (List View)) :
    Multiset.ofList ls.flatten = (ls.map Multiset.ofList).sum := by
  induction ls with
  | nil => rfl
  | cons l rest ih =>
    simp only [List.flatten_cons, List.map_cons, List.sum_cons]
    rw [← ih]
    rfl

theorem appendAll_multiset (order : List Entry) :
    Multiset.ofList (appendAll [] order) =
      (order.map (fun e => Multiset.ofList e.2)).sum := by
  rw [appendAll_eq, List.nil_append, coe_flatten_sum, List.map_map]
  rfl

/-! ## Registration -/

/-- C1: on the initial registry `"http"` has no entry and `view.Register`
would return `nil` on `[1]`, yet `RegisterViews("http", [1])` returns
`ErrDuplicateNamespaceRegistration` for `"http"`, and at return `"http"` has
no entry (the mutex is still held). -/
theorem C1_fresh_namespace_is_rejected :
    State.init.registeredViews.lookup "http" = none ∧
    okProvider State.init.calls [1] = none ∧
    RegisterViews okProvider State.init "http" [1] =
      some ({ registeredViews := ∅, mutex := true, calls := [] },
        some (GoError.ErrDuplicateNamespaceRegistration "http")) ∧
    (∅ : ViewMap).lookup "http" = none :=
  ⟨rfl, rfl, rfl, rfl⟩

/-- C3: the duplicate error goes with the absence of an entry. On the initial
registry, where `"http"` has no entry, `RegisterViews("http", [1])` returns
`ErrDuplicateNamespaceRegistration`; where `"http"` has the entry `[1]`,
`RegisterViews("http", [2])` returns `nil`. -/
theorem C3_duplicate_error_on_absent_namespace :
    (State.init.registeredViews.lookup "http" = none ∧
      ∃ s, RegisterViews okProvider State.init "http" [1] =
        some (s, some (GoError.ErrDuplicateNamespaceRegistration "http"))) ∧
    (State.http.registeredViews.lookup "http" = some [1] ∧
      ∃ s, RegisterViews okProvider State.http "http" [2] = some (s, none)) :=
  ⟨⟨rfl, _, rfl⟩, ⟨rfl, _, rfl⟩⟩

/-! ## Lookup -/

/-- What `LookupViews(name)` returns when it finds the mutex free: the error
`ErrUnregisteredNamespace` with `Namespace = name` exactly when `name` has no
entry, and then the slice is `nil`; the stored views as they are, with a `nil`
error, when `name` has an entry. -/
theorem LookupViews_result_of_free (s : State) (name : String)
    (hm : s.mutex = false) :
    (∃ s1 views err, LookupViews s name = some (s1, views, err)) ∧
    ((∃ s1 views, LookupViews s name =
        some (s1, views, some (GoError.ErrUnregisteredNamespace name))) ↔
      s.registeredViews.lookup name = none) ∧
    (s.registeredViews.lookup name = none →
      ∃ s1, LookupViews s name =
        some (s1, [], some (GoError.ErrUnregisteredNamespace name))) ∧
    (∀ stored, s.registeredViews.lookup name = some stored →
      ∃ s1, LookupViews s name = some (s1, stored, none)) := by
  have habs := LookupViews_absent s name hm
  have hpre := fun stored => LookupViews_present s name stored hm
  refine ⟨?_, ⟨?_, fun hn => ⟨s, _, habs hn⟩⟩,
    fun hn => ⟨s, habs hn⟩, fun stored hn => ⟨s, hpre stored hn⟩⟩
  · cases hl : s.registeredViews.lookup name with
    | none => exact ⟨_, _, _, habs hl⟩
    | some stored => exact ⟨_, _, _, hpre stored hl⟩
  · rintro ⟨s1, views, h⟩
    cases hl : s.registeredViews.lookup name with
    | none => rfl
    | some stored =>
      rw [hpre stored hl] at h
      simp at h

/-- C5: from the initial state, `RegisterViews("http", [1])` returns with the
mutex held; in the state so reached `"grpc"` has no entry, and
`LookupViews("grpc")` blocks in `mutex.Lock()`: it returns nothing, so not
`ErrUnregisteredNamespace` either. -/
theorem C5_lookup_after_rejected_registration_blocks :
    run okProvider State.init [Op.RegisterViews "http" [1]] =
      some { registeredViews := ∅, mutex := true, calls := [] } ∧
    (∅ : ViewMap).lookup "grpc" = none ∧
    LookupViews { registeredViews := ∅, mutex := true, calls := [] } "grpc" =
      none :=
  ⟨rfl, rfl, rfl⟩

/-! ## The aggregate -/

/-- What `AllViews()` returns when it finds the mutex free: whatever order
`range` visits the entries in, the slice holds, counted with multiplicity,
exactly the views of all the entries of the registry; on a registry without
entries it is empty. -/
theorem AllViewsIn_multiset_of_free (s : State) (order : List Entry)
    (hm : s.mutex = false) (ho : order.Perm s.registeredViews.entries) :
    ∃ s1 views, AllViewsIn order s = some (s1, views) ∧
      Multiset.ofList views =
        (s.registeredViews.entries.map (fun e => Multiset.ofList e.2)).sum ∧
      (s.registeredViews.entries = [] → views = []) := by
  refine ⟨s, appendAll [] order, AllViewsIn_free order s hm, ?_, ?_⟩
  · rw [appendAll_multiset]
    exact (ho.map _).sum_eq
  · intro he
    rw [he] at ho
    rw [ho.eq_nil]
    rfl

/-- C6: from the initial state, `RegisterViews("http", [1])` returns with the
mutex held; in the state so reached the map has no entries, and `AllViews()`
blocks in `mutex.Lock()`: it returns nothing, so not the empty slice
either. -/
theorem C6_allViews_after_rejected_registration_blocks :
    run okProvider State.init [Op.RegisterViews "http" [1]] =
      some { registeredViews := ∅, mutex := true, calls := [] } ∧
    (∅ : ViewMap).entries = [] ∧
    AllViewsIn [] { registeredViews := ∅, mutex := true, calls := [] } = none ∧
    AllViews { registeredViews := ∅, mutex := true, calls := [] } = none :=
  ⟨rfl, rfl, rfl, rfl⟩

/-! ## Activation -/

/-- C8: called with the mutex free, `RegisterViews(ns, views)` returns; when
it has called `view.Register` (which it does whenever `ns` has an entry) and
that call returned the error `err`, the error returned is `err` itself, which
is neither `ErrDuplicateNamespaceRegistration` nor
`ErrUnregisteredNamespace`. -/
theorem C8_activation_error_returned_unchanged (p : ViewProvider) (s : State)
    (ns : String) (views : List View) (err : ViewError)
    (hm : s.mutex = false) (hp : p s.calls views = some err) :
    ∃ s1 r, RegisterViews p s ns views = some (s1, r) ∧
      (s1.calls = s.calls ++ [views] → r = some (GoError.viewRegister err)) ∧
      (∀ old, s.registeredViews.lookup ns = some old →
        s1.calls = s.calls ++ [views]) ∧
      (∀ n, GoError.viewRegister err ≠ GoError.ErrDuplicateNamespaceRegistration n ∧
        GoError.viewRegister err ≠ GoError.ErrUnregisteredNamespace n) := by
  cases hl : s.registeredViews.lookup ns with
  | none =>
    refine ⟨_, _, RegisterViews_absent p s ns views hm hl, ?_, ?_, ?_⟩
    · intro hc
      simp at hc
    · intro old ho
      cases ho
    · intro n
      exact ⟨by simp, by simp⟩
  | some old =>
    refine ⟨_, _, RegisterViews_present_fail p s ns views old err hm hl hp,
      fun _ => rfl, fun _ _ => rfl, ?_⟩
    intro n
    exact ⟨by simp, by simp⟩

theorem C8_activation_error_returned_unchanged_witness :
    ∃ s1 r, RegisterViews (failProvider "bad") State.http "http" [2] = some (s1, r) ∧
      (s1.calls = State.http.calls ++ [[2]] → r = some (GoError.viewRegister "bad")) ∧
      (∀ old, State.http.registeredViews.lookup "http" = some old →
        s1.calls = State.http.calls ++ [[2]]) ∧
      (∀ n, GoError.viewRegister "bad" ≠ GoError.ErrDuplicateNamespaceRegistration n ∧
        GoError.viewRegister "bad" ≠ GoError.ErrUnregisteredNamespace n) :=
  C8_activation_error_returned_unchanged (failProvider "bad") State.http "http" [2]
    "bad" rfl rfl

/-- C9: called with the mutex free, `RegisterViews(ns, views)` returns, and
the calls to `view.Register` recorded at return are those recorded at entry,
or those followed by one call with exactly `views`; when the error returned is
`ErrDuplicateNamespaceRegistration` no call was added. -/
theorem C9_activation_called_at_most_once (p : ViewProvider) (s : State)
    (ns : String) (views : List View) (hm : s.mutex = false) :
    ∃ s1 r, RegisterViews p s ns views = some (s1, r) ∧
      (s1.calls = s.calls ∨ s1.calls = s.calls ++ [views]) ∧
      (∀ n, r = some (GoError.ErrDuplicateNamespaceRegistration n) →
        s1.calls = s.calls) := by
  cases hl : s.registeredViews.lookup ns with
  | none =>
    exact ⟨_, _, RegisterViews_absent p s ns views hm hl, Or.inl rfl, fun _ _ => rfl⟩
  | some old =>
    cases hp : p s.calls views with
    | none =>
      refine ⟨_, _, RegisterViews_present_ok p s ns views old hm hl hp, Or.inr rfl, ?_⟩
      intro n hn
      cases hn
    | some err =>
      refine ⟨_, _, RegisterViews_present_fail p s ns views old err hm hl hp,
        Or.inr rfl, ?_⟩
      intro n hn
      cases hn

theorem C9_activation_called_at_most_once_witness :
    ∃ s1 r, RegisterViews okProvider State.http "http" [2, 3] = some (s1, r) ∧
      (s1.calls = State.http.calls ∨ s1.calls = State.http.calls ++ [[2, 3]]) ∧
      (∀ n, r = some (GoError.ErrDuplicateNamespaceRegistration n) →
        s1.calls = State.http.calls) :=
  C9_activation_called_at_most_once okProvider State.http "http" [2, 3] rfl

/-! ## The queries leave the map alone -/

/-- C11: called with the mutex free, `LookupViews(name)` and `AllViews()`
return, and `registeredViews` at return is the map it was at the call,
whatever the name and whatever order `range` visits the entries in. -/
theorem C11_queries_leave_map_unchanged (s : State) (name : String)
    (order : List Entry) (hm : s.mutex = false) :
    (∃ s1 views err, LookupViews s name = some (s1, views, err) ∧
      s1.registeredViews = s.registeredViews) ∧
    (∃ s1 views, AllViewsIn order s = some (s1, views) ∧
      s1.registeredViews = s.registeredViews) := by
  refine ⟨?_, s, _, AllViewsIn_free order s hm, rfl⟩
  cases hl : s.registeredViews.lookup name with
  | none => exact ⟨s, _, _, LookupViews_absent s name hm hl, rfl⟩
  | some stored => exact ⟨s, _, _, LookupViews_present s name stored hm hl, rfl⟩

theorem C11_queries_leave_map_unchanged_witness :
    (∃ s1 views err, LookupViews State.http "grpc" = some (s1, views, err) ∧
      s1.registeredViews = State.http.registeredViews) ∧
    (∃ s1 views, AllViewsIn [⟨"http", [1]⟩] State.http = some (s1, views) ∧
      s1.registeredViews = State.http.registeredViews) :=
  C11_queries_leave_map_unchanged State.http "grpc" [⟨"http", [1]⟩] rfl

/-! ## Sequences of calls from the initial state -/

theorem RegisterViews_of_empty (p : ViewProvider) (s s1 : State) (ns : String)
    (views : List View) (r : Option GoError) (he : s.registeredViews = ∅)
    (h : RegisterViews p s ns views = some (s1, r)) :
    r = some (GoError.ErrDuplicateNamespaceRegistration ns) ∧
      s1.registeredViews = ∅ ∧ s1.calls = s.calls ∧ s1.mutex = true := by
  have hl : s.registeredViews.lookup ns = none := by
    rw [he]
    exact AList.lookup_empty ns
  cases hm : s.mutex with
  | true =>
    rw [RegisterViews_blocked p s ns views hm] at h
    cases h
  | false =>
    rw [RegisterViews_absent p s ns views hm hl] at h
    cases h
    exact ⟨rfl, he, rfl, rfl⟩

theorem step_registry_empty (p : ViewProvider) (s s1 : State) (op : Op)
    (he : s.registeredViews = ∅) (h : step p s op = some s1) :
    s1.registeredViews = ∅ := by
  cases op with
  | RegisterViews ns views =>
    cases hr : RegisterViews p s ns views with
    | none => simp [step, hr] at h
    | some res =>
      obtain ⟨s2, r⟩ := res
      simp [step, hr] at h
      subst h
      exact (RegisterViews_of_empty p s s2 ns views r he hr).2.1
  | LookupViews name =>
    cases hm : s.mutex with
    | true => simp [step, LookupViews_blocked s name hm] at h
    | false =>
      cases hl : s.registeredViews.lookup name with
      | none =>
        simp [step, LookupViews_absent s name hm hl] at h
        subst h
        exact he
      | some stored =>
        simp [step, LookupViews_present s name stored hm hl] at h
        subst h
        exact he
  | AllViews order =>
    cases hm : s.mutex with
    | true => simp [step, AllViewsIn_blocked order s hm] at h
    | false =>
      simp [step, AllViewsIn_free order s hm] at h
      subst h
      exact he

theorem run_registry_empty (p : ViewProvider) (ops : List Op) (s s1 : State)
    (he : s.registeredViews = ∅) (h : run p s ops = some s1) :
    s1.registeredViews = ∅ := by
  induction ops generalizing s with
  | nil =>
    simp [run] at h
    subst h
    exact he
  | cons op rest ih =>
    cases hs : step p s op with
    | none => simp [run, hs] at h
    | some s2 =>
      simp [run, hs] at h
      exact ih s2 (step_registry_empty p s s2 op he hs) h

theorem run_init_registerViews (p : ViewProvider) (ops : List Op) (s s1 : State)
    (ns : String) (views : List View) (r : Option GoError)
    (hrun : run p State.init ops = some s)
    (h : RegisterViews p s ns views = some (s1, r)) :
    r = some (GoError.ErrDuplicateNamespaceRegistration ns) ∧ s1.calls = s.calls :=
  have he := run_registry_empty p ops State.init s rfl hrun
  have hr := RegisterViews_of_empty p s s1 ns views r he h
  ⟨hr.1, hr.2.2.1⟩

theorem step_calls_of_empty (p : ViewProvider) (s s1 : State) (op : Op)
    (he : s.registeredViews = ∅) (h : step p s op = some s1) :
    s1.calls = s.calls := by
  cases op with
  | RegisterViews ns views =>
    cases hr : RegisterViews p s ns views with
    | none => simp [step, hr] at h
    | some res =>
      obtain ⟨s2, r⟩ := res
      simp [step, hr] at h
      subst h
      exact (RegisterViews_of_empty p s s2 ns views r he hr).2.2.1
  | LookupViews name =>
    cases hm : s.mutex with
    | true => simp [step, LookupViews_blocked s name hm] at h
    | false =>
      cases hl : s.registeredViews.lookup name with
      | none =>
        simp [step, LookupViews_absent s name hm hl] at h
        subst h
        rfl
      | some stored =>
        simp [step, LookupViews_present s name stored hm hl] at h
        subst h
        rfl
  | AllViews order =>
    cases hm : s.mutex with
    | true => simp [step, AllViewsIn_blocked order s hm] at h
    | false =>
      simp [step, AllViewsIn_free order s hm] at h
      subst h
      rfl

theorem run_calls_of_empty (p : ViewProvider) (ops : List Op) (s s1 : State)
    (he : s.registeredViews = ∅) (h : run p s ops = some s1) :
    s1.calls = s.calls := by
  induction ops generalizing s with
  | nil =>
    simp [run] at h
    subst h
    rfl
  | cons op rest ih =>
    cases hs : step p s op with
    | none => simp [run, hs] at h
    | some s2 =>
      simp [run, hs] at h
      rw [ih s2 (step_registry_empty p s s2 op he hs) h]
      exact step_calls_of_empty p s s2 op he hs

/-- After any sequence of calls from the initial state `view.Register` has
not been called. -/
theorem run_init_calls (p : ViewProvider) (ops : List Op) (s : State)
    (hrun : run p State.init ops = some s) : s.calls = [] :=
  run_calls_of_empty p ops State.init s rfl hrun

/-- After any sequence of calls from the initial state no `RegisterViews`
call returns `nil`. -/
theorem run_init_no_success (p : ViewProvider) (ops : List Op) (s s1 : State)
    (ns : String) (views : List View)
    (hrun : run p State.init ops = some s) :
    RegisterViews p s ns views ≠ some (s1, none) := by
  intro h
  have hr := (run_init_registerViews p ops s s1 ns views none hrun h).1
  cases hr

/-! ## Entries over time -/

/-- C10: in every state that a sequence of calls from the initial state
leads to, every call that returns (`RegisterViews` with any arguments and any
answer of `view.Register`, `LookupViews`, `AllViews`) leaves `registeredViews`
the map it was: every namespace that has an entry before the call has the
same views after it. -/
theorem C10_entries_kept_from_init (p : ViewProvider) (ops : List Op)
    (s s1 : State) (op : Op) (hrun : run p State.init ops = some s)
    (hstep : step p s op = some s1) :
    s1.registeredViews = s.registeredViews ∧
    ∀ m stored, s.registeredViews.lookup m = some stored →
      s1.registeredViews.lookup m = some stored := by
  have he := run_registry_empty p ops State.init s rfl hrun
  have he1 := step_registry_empty p s s1 op he hstep
  have heq : s1.registeredViews = s.registeredViews := by rw [he, he1]
  refine ⟨heq, ?_⟩
  intro m stored hl
  rw [heq]
  exact hl

theorem C10_entries_kept_from_init_witness :
    ({ registeredViews := ∅, mutex := true, calls := [] } : State).registeredViews =
      State.init.registeredViews ∧
    ∀ m stored, State.init.registeredViews.lookup m = some stored →
      ({ registeredViews := ∅, mutex := true, calls := [] } : State).registeredViews.lookup m =
        some stored :=
  C10_entries_kept_from_init okProvider [Op.LookupViews "grpc", Op.AllViews []]
    State.init { registeredViews := ∅, mutex := true, calls := [] }
    (Op.RegisterViews "http" [1]) rfl rfl

/-- C12: from the initial state, `RegisterViews("http", [1])` returns
`ErrDuplicateNamespaceRegistration` and leaves the map empty and the mutex
held; the state so reached is reachable, and in it `RegisterViews("grpc", [2])`
blocks in `mutex.Lock()`: this call returns nothing, so not
`ErrDuplicateNamespaceRegistration` either. -/
theorem C12_second_call_from_init_blocks :
    RegisterViews okProvider State.init "http" [1] =
      some ({ registeredViews := ∅, mutex := true, calls := [] },
        some (GoError.ErrDuplicateNamespaceRegistration "http")) ∧
    run okProvider State.init [Op.RegisterViews "http" [1]] =
      some { registeredViews := ∅, mutex := true, calls := [] } ∧
    RegisterViews okProvider { registeredViews := ∅, mutex := true, calls := [] }
      "grpc" [2] = none :=
  ⟨rfl, rfl, rfl⟩

/-! ## The mutex -/

/-- C13: `RegisterViews` started with the mutex unlocked returns with the
mutex locked on both of its error paths: from the initial state when it
returns `ErrDuplicateNamespaceRegistration`, and where `"http"` has an entry
when it returns the error of `view.Register`. -/
theorem C13_error_returns_leave_mutex_locked :
    State.init.mutex = false ∧
    (∃ s1, RegisterViews okProvider State.init "http" [1] =
        some (s1, some (GoError.ErrDuplicateNamespaceRegistration "http")) ∧
      s1.mutex = true) ∧
    State.http.mutex = false ∧
    (∃ s1, RegisterViews (failProvider "bad") State.http "http" [2] =
        some (s1, some (GoError.viewRegister "bad")) ∧
      s1.mutex = true) :=
  ⟨rfl, ⟨_, rfl, rfl⟩, rfl, ⟨_, rfl, rfl⟩⟩

/-! ## Other namespaces -/

/-- C14: called with the mutex free, `RegisterViews(ns, views)` returns, and
for every namespace `m` other than `ns` the entry of `m` at return is what it
was at the call: the same views, or no entry, whatever `view.Register`
answers. -/
theorem C14_other_namespace_unchanged (p : ViewProvider) (s : State)
    (ns m : String) (views : List View) (hm : s.mutex = false) (hne : m ≠ ns) :
    ∃ s1 r, RegisterViews p s ns views = some (s1, r) ∧
      s1.registeredViews.lookup m = s.registeredViews.lookup m := by
  cases hl : s.registeredViews.lookup ns with
  | none => exact ⟨_, _, RegisterViews_absent p s ns views hm hl, rfl⟩
  | some old =>
    cases hp : p s.calls views with
    | none => exact ⟨_, _, RegisterViews_present_ok p s ns views old hm hl hp, rfl⟩
    | some err =>
      exact ⟨_, _, RegisterViews_present_fail p s ns views old err hm hl hp,
        AList.lookup_erase_ne hne⟩

theorem C14_other_namespace_unchanged_witness :
    ∃ s1 r,
      RegisterViews (failProvider "bad")
        { registeredViews := ViewMap.httpGrpc, mutex := false, calls := [] }
        "http" [4] = some (s1, r) ∧
      s1.registeredViews.lookup "grpc" = ViewMap.httpGrpc.lookup "grpc" :=
  C14_other_namespace_unchanged (failProvider "bad")
    { registeredViews := ViewMap.httpGrpc, mutex := false, calls := [] }
    "http" "grpc" [4] rfl (by decide)

end Metrics
